import Mathlib

/-!
Shallow embedding of the data-access and statistics pipeline of the
Data-Visualization-Project repository (src/data-loader.js,
src/correlation-visualization.js, src/windfield-canvas-visualization.js).

JavaScript numbers are modelled by ℚ (the concrete values appearing in the
development are small integers and decimal fractions on which double
arithmetic is exact); cell values of parsed records are modelled by the
tagged union `JSVal` (a number, a string, `null`, or `undefined`).
-/

set_option maxHeartbeats 1000000

namespace DV

/-- A JavaScript value as stored in a parsed CSV record: a (finite) number,
a string, `null`, or `undefined` (the result of reading an absent key). -/
inductive JSVal where
  | num (q : ℚ)
  | str (s : String)
  | nullv
  | undef
deriving DecidableEq

/-- A parsed record (JS object): association list from column name to value,
in insertion order, keys unique. -/
abbrev Rec := List (String × JSVal)

/-- Property read `d[k]`: the value stored under key `k`, `undefined` when absent. -/
def jsGet (d : Rec) (k : String) : JSVal :=
  (((d.find? (fun e => e.1 = k)).map Prod.snd).getD JSVal.undef)

/-- `a.startsWith b` on character lists. -/
def listStartsWith : List Char → List Char → Bool
  | _, [] => true
  | [], _ :: _ => false
  | a :: as, b :: bs => a = b && listStartsWith as bs

/-- JS `hay.includes(needle)`: substring test. -/
def strContains (hay needle : String) : Bool :=
  (hay.data.tails).any (fun t => listStartsWith t needle.data)

/-- Upper-case a single ASCII letter (JS `toUpperCase`, ASCII fragment). -/
def upChar (c : Char) : Char :=
  if 'a' ≤ c ∧ c ≤ 'z' then Char.ofNat (c.toNat - 32) else c

/-- JS `s.toUpperCase()` on the ASCII fragment used by the variable names. -/
def upStr (s : String) : String := ⟨s.data.map upChar⟩

/-- JS `s.trim()`: strip whitespace from both ends. -/
def jsTrim (s : String) : String :=
  ⟨((s.data.dropWhile Char.isWhitespace).reverse.dropWhile Char.isWhitespace).reverse⟩

/-- JS `s.split(sep)` on character lists (every occurrence of `sep` separates,
empty fields kept). -/
def splitOnChar (sep : Char) : List Char → List (List Char)
  | [] => [[]]
  | c :: cs =>
    let r := splitOnChar sep cs
    if c = sep then [] :: r
    else (c :: r.headD []) :: r.tail

/-- `⟨cs⟩.take n` on the underlying characters (JS `substring`). -/
def strTake (s : String) (n : ℕ) : String := ⟨s.data.take n⟩

/-- Drop the first `n` characters (JS `substring(n, _)`). -/
def strDrop (s : String) (n : ℕ) : String := ⟨s.data.drop n⟩

/-- JS `ToNumber` on a string, restricted to optionally signed decimal
literals (the only string shapes this dataset produces): the trimmed empty
string converts to 0, a decimal literal to its value, anything else to NaN
(`none`). -/
def strToNumQ (s : String) : Option ℚ :=
  let t := jsTrim s
  if t = "" then some 0
  else
    let (sign, body) :=
      match t.data with
      | '-' :: rest => ((-1 : ℚ), rest)
      | '+' :: rest => ((1 : ℚ), rest)
      | cs => ((1 : ℚ), cs)
    let digitsToNat : List Char → Option ℕ := fun cs =>
      if cs.isEmpty then none
      else cs.foldl (fun acc c =>
        match acc with
        | none => none
        | some n => if c.isDigit then some (n * 10 + (c.toNat - '0'.toNat)) else none)
        (some 0)
    match splitOnChar '.' body with
    | [i] => (digitsToNat i).map (fun n => sign * n)
    | [i, f] =>
      if i.isEmpty && f.isEmpty then none
      else
        let ip : Option ℕ := if i.isEmpty then some 0 else digitsToNat i
        let fp : Option ℚ :=
          if f.isEmpty then some 0
          else (digitsToNat f).map (fun n => (n : ℚ) / (10 : ℚ) ^ f.length)
        match ip, fp with
        | some a, some b => some (sign * ((a : ℚ) + b))
        | _, _ => none
    | _ => none

/-- JS global `isNaN(v)`: does `ToNumber v` yield NaN?  `ToNumber` maps
numbers to themselves, `null` to 0, `undefined` to NaN and strings through
the literal grammar. -/
def jsIsNaN (v : JSVal) : Bool :=
  match v with
  | JSVal.num _ => false
  | JSVal.str s => (strToNumQ s).isNone
  | JSVal.nullv => false
  | JSVal.undef => true

/-- JS `Number(v)` under the assumption that it does not yield NaN
(callers guard with `isNaN` first); NaN cases default to 0. -/
def toNumQ (v : JSVal) : ℚ :=
  match v with
  | JSVal.num q => q
  | JSVal.str s => (strToNumQ s).getD 0
  | JSVal.nullv => 0
  | JSVal.undef => 0

/-- JS truthiness of a value (`0`, `NaN`, `""`, `null`, `undefined` are falsy). -/
def truthy (v : JSVal) : Bool :=
  match v with
  | JSVal.num q => q ≠ 0
  | JSVal.str s => s ≠ ""
  | JSVal.nullv => false
  | JSVal.undef => false

/-- JS `a || b`: `a` when truthy, else `b`. -/
def jsOr (a b : JSVal) : JSVal := if truthy a then a else b

/-- JS loose inequality `v != null`, false exactly for `null` and `undefined`. -/
def jsNeqNull (v : JSVal) : Bool :=
  match v with
  | JSVal.nullv => false
  | JSVal.undef => false
  | _ => true

/-- `Math.ceil(a / b)` on natural numbers (the call sites use `b > 0`). -/
def jsCeilDiv (a b : ℕ) : ℕ := (a + b - 1) / b

/-- `data.filter((d, i) => i % step === 0)`: keep the elements whose index is
a multiple of `step`, in their original relative order (call sites use
`step > 0`). -/
def jsStride {α : Type} (step : ℕ) (l : List α) : List α :=
  (l.enum.filter (fun x => x.1 % step == 0)).map Prod.snd

end DV

namespace DV.Corr

/-!
src/correlation-visualization.js — the statistics engine of the
correlation heat map: `getColumnName`, `extractValue`,
`computeCorrelationMatrix`, `correlation`.
-/

open DV

/-- `getColumnName(sample, varName)` (correlation-visualization.js:79-87):
first stored column name that contains `varName` or its upper-cased form,
else `null` (modelled as `none`). -/
def getColumnName (sample : Rec) (varName : String) : Option String :=
  (sample.map Prod.fst).find?
    (fun key => strContains key varName || strContains key (upStr varName))

/-- `extractValue(d, varName)` (correlation-visualization.js:92-102):
`d[varName] || d[this.getColumnName(d, varName)] || d[varName+'(微克每立方米)'] || d[varName+'(mg/m3)']`,
then `null` when the chosen value is `null`/`undefined`/NaN-coercing, else
`Number(value)`.  A `null` column name indexes the object as the property
string `"null"`. -/
def extractValue (d : Rec) (varName : String) : Option ℚ :=
  let value :=
    jsOr (jsOr (jsOr (jsGet d varName)
                     (jsGet d ((getColumnName d varName).getD "null")))
               (jsGet d (varName ++ "(微克每立方米)")))
         (jsGet d (varName ++ "(mg/m3)"))
  if value = JSVal.nullv ∨ value = JSVal.undef ∨ jsIsNaN value then none
  else some (toNumQ value)

/-- `data.map(d => this.extractValue(d, v)).filter(val => val !== null)`
(correlation-visualization.js:113-115): the per-variable value sequence,
each variable filtered independently. -/
def extractVals (data : List Rec) (v : String) : List ℚ :=
  (data.map (fun d => extractValue d v)).filterMap id

/-- `d3.mean` of a list of numbers (0 on the empty list; callers guard). -/
def meanQ (l : List ℚ) : ℚ := l.sum / l.length

/-- The loop accumulator `sumSqX` (resp. `sumSqY`) of `correlation`
(correlation-visualization.js:147-153): sum of squared deviations from the mean. -/
def sumSqDev (l : List ℚ) : ℚ := (l.map (fun v => (v - meanQ l) ^ 2)).sum

/-- The loop accumulator `numerator` of `correlation`
(correlation-visualization.js:147-153), over positionally paired entries. -/
def corrNum (x y : List ℚ) : ℚ :=
  ((x.zip y).map (fun p => (p.1 - meanQ x) * (p.2 - meanQ y))).sum

/-- `correlation(x, y)` (correlation-visualization.js:137-159): 0 on length
mismatch or empty input; otherwise Pearson's coefficient with denominator
`Math.sqrt(sumSqX * sumSqY)`, defined as 0 when that denominator is 0. -/
noncomputable def correlation (x y : List ℚ) : ℝ :=
  if x.length ≠ y.length ∨ x.length = 0 then 0
  else
    let denominator := Real.sqrt ((sumSqDev x * sumSqDev y : ℚ) : ℝ)
    if denominator = 0 then 0 else ((corrNum x y : ℚ) : ℝ) / denominator

/-- `computeCorrelationMatrix(data, variables)`
(correlation-visualization.js:107-132): per-variable independently filtered
value sequences, then an n×n matrix with 1.0 on the (index-)diagonal and
`correlation` of the two filtered sequences elsewhere. -/
noncomputable def computeCorrelationMatrix (data : List Rec) (vars : List String) :
    List (List ℝ) :=
  let values := vars.map (fun v => extractVals data v)
  values.enum.map (fun ei =>
    values.enum.map (fun ej =>
      if ei.1 = ej.1 then (1 : ℝ) else correlation ei.2 ej.2))

/-- Entry (i, j) of a matrix given as nested lists (0 outside the bounds). -/
noncomputable def matrixEntry (m : List (List ℝ)) (i j : ℕ) : ℝ :=
  (m.getD i []).getD j 0

/-- Modelled from the spec (the code filters each variable independently):
the paired values for variables `vi`, `vj`, taken only from records where
both resolve to a numeric value. -/
def pairedVals (data : List Rec) (vi vj : String) : List (ℚ × ℚ) :=
  data.filterMap (fun d =>
    match extractValue d vi, extractValue d vj with
    | some a, some b => some (a, b)
    | _, _ => none)

/-- Modelled from the spec: the Pearson coefficient of a list of pairs,
defined as 0 when the product of the two sums of squared deviations is 0. -/
noncomputable def pearsonSpec (pairs : List (ℚ × ℚ)) : ℝ :=
  let xs := pairs.map Prod.fst
  let ys := pairs.map Prod.snd
  if sumSqDev xs * sumSqDev ys = 0 then 0
  else ((corrNum xs ys : ℚ) : ℝ) / Real.sqrt ((sumSqDev xs * sumSqDev ys : ℚ) : ℝ)

/-- Concrete record 1 for the correlation-matrix analysis: both variables numeric. -/
def cRec1 : Rec := [("A", JSVal.num 1), ("B", JSVal.num 2)]

/-- Concrete record 2: both variables numeric. -/
def cRec2 : Rec := [("A", JSVal.num 2), ("B", JSVal.num 4)]

/-- Concrete record 3: variable "B" missing. -/
def cRec3 : Rec := [("A", JSVal.num 3)]

/-- Concrete record set in which one record lacks variable "B". -/
def cData : List Rec := [cRec1, cRec2, cRec3]

/-- Concrete record set in which every record resolves both variables. -/
def cDataFull : List Rec := [cRec1, cRec2]

end DV.Corr

namespace DV.Loader

/-!
src/data-loader.js — dataset locator, day loader and cache, field resolver
and the two fixed-stride samplers.
-/

open DV

/-- The parsed content of a fetched CSV file: its `data` array of records.
`parseCSV` is total (any text yields a header row and a record per further
line), so fetch-and-parse fails exactly when the fetch fails. -/
abbrev Csv := List Rec

/-- The mutable fields of the `DataLoader` instance (data-loader.js:5-15). -/
structure LoaderState where
  dataCache : List (String × Csv)
  basePath : String
  resolvedBasePath : Option String
deriving DecidableEq

/-- The fetch oracle: what fetching (and parsing) each URL yields during the
run, `none` for a failed or non-ok response. -/
abbrev Fetch := String → Option Csv

/-- The loader state right after the constructor, with the default base path
and nothing cached or resolved. -/
def initialState : LoaderState :=
  { dataCache := [], basePath := "./Dataset/", resolvedBasePath := none }

/-- `root.endsWith('/') ? root : root + '/'` (data-loader.js:48). -/
def normRoot (root : String) : String :=
  if root.data.getLast? = some '/' then root else root ++ "/"

/-- `` `CN-Reanalysis-daily-${yearMonthDay}00.csv` `` (data-loader.js:44,119). -/
def dayFileName (ymd : String) : String := "CN-Reanalysis-daily-" ++ ymd ++ "00.csv"

/-- `` `${yearMonth}/${fileName}` `` — the day file path relative to a root
(data-loader.js:43-45). -/
def dayRelative (ymd : String) : String := strTake ymd 6 ++ "/" ++ dayFileName ymd

/-- The ordered candidate roots probed by `resolveBasePathIfNeeded`
(data-loader.js:32-39): the current setting first, then the fixed fallbacks. -/
def candidateRoots (st : LoaderState) : List String :=
  [st.basePath, "./Dataset/", "./dataset/", "./data/", "/Dataset/", "/data/"]

/-- The probe loop of `resolveBasePathIfNeeded` (data-loader.js:47-62): one
fetch per candidate in order; on the first success adopt and remember the
normalized root; when all fail return `basePath` with the state unchanged.
Also returns the trace of probed URLs in order. -/
def probeRoots (st : LoaderState) (fetch : Fetch) (rel : String) :
    List String → String × LoaderState × List String
  | [] => (st.basePath, st, [])
  | root :: rest =>
    let rootNorm := normRoot root
    let testUrl := rootNorm ++ rel
    if (fetch testUrl).isSome then
      (rootNorm, { st with resolvedBasePath := some rootNorm, basePath := rootNorm }, [testUrl])
    else
      let r := probeRoots st fetch rel rest
      (r.1, r.2.1, testUrl :: r.2.2)

/-- `resolveBasePathIfNeeded(yearMonthDay)` (data-loader.js:30-63): return the
already-resolved root without fetching, else probe the candidates. -/
def resolveBasePathIfNeeded (st : LoaderState) (fetch : Fetch) (ymd : String) :
    String × LoaderState × List String :=
  match st.resolvedBasePath with
  | some r => (r, st, [])
  | none => probeRoots st fetch (dayRelative ymd) (candidateRoots st)

/-- JS object property write `row[k] = v`: overwrite in place, else append. -/
def setKey (d : Rec) (k : String) (v : JSVal) : Rec :=
  if d.any (fun e => e.1 = k) then d.map (fun e => if e.1 = k then (k, v) else e)
  else d ++ [(k, v)]

/-- The stamping loop of `loadDayData` (data-loader.js:139-143): write `date`,
`yearMonth` and `day` into a record. -/
def stampRow (ymd : String) (row : Rec) : Rec :=
  setKey (setKey (setKey row "date" (JSVal.str ymd))
      "yearMonth" (JSVal.str (strTake ymd 6)))
    "day" (JSVal.str (strDrop ymd 6))

/-- `loadDayData(yearMonthDay)` (data-loader.js:108-149): cache check; first
fetch from the resolved-or-default root; on failure one root re-resolution
and one retry; on success stamp the rows and cache them; on double failure
return the empty list — without writing the cache (line 133-136 returns
before the `dataCache.set` on line 146).  Returns the records, the new state
and the trace of fetched URLs. -/
def loadDayData (st : LoaderState) (fetch : Fetch) (ymd : String) :
    Csv × LoaderState × List String :=
  match (st.dataCache.find? (fun e => e.1 = ymd)).map Prod.snd with
  | some rows => (rows, st, [])
  | none =>
    let fileName := dayFileName ymd
    let filePath1 := (st.resolvedBasePath.getD st.basePath) ++ strTake ymd 6 ++ "/" ++ fileName
    match fetch filePath1 with
    | some result =>
      let stamped := result.map (stampRow ymd)
      (stamped, { st with dataCache := st.dataCache ++ [(ymd, stamped)] }, [filePath1])
    | none =>
      let pr := resolveBasePathIfNeeded st fetch ymd
      let st2 := pr.2.1
      let filePath2 := (st2.resolvedBasePath.getD st2.basePath) ++ strTake ymd 6 ++ "/" ++ fileName
      match fetch filePath2 with
      | some result =>
        let stamped := result.map (stampRow ymd)
        (stamped, { st2 with dataCache := st2.dataCache ++ [(ymd, stamped)] },
          filePath1 :: pr.2.2 ++ [filePath2])
      | none => ([], st2, filePath1 :: pr.2.2 ++ [filePath2])

/-- A calendar date as held in a JS `Date` (proleptic Gregorian). -/
structure CalDate where
  year : ℕ
  month : ℕ
  day : ℕ
deriving DecidableEq

/-- Gregorian leap-year rule, as implemented by JS `Date`. -/
def isLeapYear (y : ℕ) : Bool := (y % 4 = 0 && y % 100 ≠ 0) || y % 400 = 0

/-- Number of days of month `m` of year `y`. -/
def daysInMonth (y m : ℕ) : ℕ :=
  if m = 2 then (if isLeapYear y then 29 else 28)
  else if m = 4 ∨ m = 6 ∨ m = 9 ∨ m = 11 then 30 else 31

/-- `currentDate.setDate(currentDate.getDate() - 1)`: one calendar day back,
with JS `Date`'s month and year rollover. -/
def prevDay (d : CalDate) : CalDate :=
  if d.day > 1 then ⟨d.year, d.month, d.day - 1⟩
  else if d.month > 1 then ⟨d.year, d.month - 1, daysInMonth d.year (d.month - 1)⟩
  else ⟨d.year - 1, 12, 31⟩

/-- A date formatted as `%Y%m%d` read as a number: on equal-length digit
strings JS string comparison (`dateStr < '20130101'`) coincides with numeric
comparison. -/
def dateNum (d : CalDate) : ℕ := d.year * 10000 + d.month * 100 + d.day

/-- The date-enumeration loop of `loadConsecutiveDays` (data-loader.js:169-176):
push the current date, step one day back, and break AFTER the push when the
pushed date is below `'20130101'`.  The `while (currentDate >= endDate)`
condition — with `endDate` set `days` days before `start` and one backward
step per iteration — holds for exactly `days + 1` iterations, which the fuel
argument mirrors. -/
def walkDates (cur : CalDate) : ℕ → List ℕ
  | 0 => []
  | fuel + 1 =>
    let s := dateNum cur
    if s < 20130101 then [s] else s :: walkDates (prevDay cur) fuel

/-- The `availableDates` list of `loadConsecutiveDays(startDate, days)`
(data-loader.js:166-176); one `loadDayData` is issued per entry (line 179). -/
def availableDates (start : CalDate) (days : ℕ) : List ℕ :=
  walkDates start (days + 1)

/-- `sampleTimeseriesData(data, sampleRate)` (data-loader.js:210-217):
identity up to 10000 elements, else keep every `sampleRate`-th element.
JS evaluates `i % 0 === 0` as `NaN === 0`, i.e. false, which the
`sampleRate ≠ 0` conjunct mirrors. -/
def sampleTimeseriesData {α : Type} (data : List α) (sampleRate : ℕ) : List α :=
  if data.length ≤ 10000 then data
  else (data.enum.filter (fun x => sampleRate ≠ 0 && x.1 % sampleRate == 0)).map Prod.snd

/-- `sampleData(data, maxPoints)` (data-loader.js:322-327): identity up to
`maxPoints`, else fixed-stride reduction with stride
`Math.ceil(data.length / maxPoints)`. -/
def sampleData {α : Type} (data : List α) (maxPoints : ℕ) : List α :=
  if data.length ≤ maxPoints then data
  else jsStride (jsCeilDiv data.length maxPoints) data

/-- An extracted point as built by `extractPollutantData`
(data-loader.js:306-315). -/
structure EPt where
  lat : JSVal
  lon : JSVal
  value : JSVal
  date : JSVal
  yearMonth : JSVal
  temp : JSVal
  rh : JSVal
  u : JSVal
  v : JSVal
deriving DecidableEq

/-- `obj.hasOwnProperty(k)`. -/
def hasKey (d : Rec) (k : String) : Bool := d.any (fun e => e.1 = k)

/-- `extractPollutantData(rawData, pollutantName)` (data-loader.js:260-317):
resolve the column by the fixed candidate list then by substring match over
the first record's keys; project every row; keep the rows whose value passes
`d.value != null && !isNaN(d.value)`. -/
def extractPollutantData (rawData : List Rec) (pollutantName : String) : List EPt :=
  match rawData with
  | [] => []
  | first :: _ =>
    let allKeys := first.map Prod.fst
    let possibleKeys := [pollutantName, jsTrim pollutantName, " " ++ pollutantName,
      pollutantName ++ " ", pollutantName ++ "(", " " ++ pollutantName ++ "("]
    let matchedKey :=
      match possibleKeys.find? (fun k => hasKey first k) with
      | some k => some k
      | none => allKeys.find? (fun k => strContains k (jsTrim pollutantName))
    match matchedKey with
    | none => []
    | some mk =>
      (rawData.map (fun row =>
        ({ lat := jsGet row "lat", lon := jsGet row "lon", value := jsGet row mk,
           date := jsGet row "date", yearMonth := jsGet row "yearMonth",
           temp := jsOr (jsGet row "TEMP") (jsGet row "TEMP(K)"),
           rh := jsOr (jsGet row "RH") (jsGet row "RH(%)"),
           u := jsOr (jsGet row "U") (jsGet row "U(m/s)"),
           v := jsOr (jsGet row "V") (jsGet row "V(m/s)") } : EPt))).filter
        (fun d => jsNeqNull d.value && !jsIsNaN d.value)

/-- A fetch oracle under which every request fails. -/
def fetchNone : Fetch := fun _ => none

/-- The parsed day file served by `fetchOneDay`. -/
def oneDayCsv : Csv :=
  [[("lat", JSVal.num 30), ("lon", JSVal.num 120), ("PM2.5", JSVal.num 55)]]

/-- A fetch oracle serving one concrete day file at the default root. -/
def fetchOneDay : Fetch := fun u =>
  if u = "./Dataset/201301/CN-Reanalysis-daily-2013010400.csv" then some oneDayCsv
  else none

/-- A concrete raw record whose resolved value is the empty string — the
shape `parseCSV` produces for an empty CSV cell (`parseFloat('')` is NaN, so
the trimmed string is kept). -/
def edgeRow : Rec :=
  [("lat", JSVal.num 30), ("lon", JSVal.num 120), ("PM2.5", JSVal.str ""),
   ("date", JSVal.str "20130101")]

/-- A one-record data set around `edgeRow`. -/
def edgeData : List Rec := [edgeRow]

/-- A concrete record with a numeric pollutant value. -/
def okRow : Rec :=
  [("lat", JSVal.num 30), ("lon", JSVal.num 120), ("PM2.5", JSVal.num 55),
   ("date", JSVal.str "20130101")]

/-- A one-record data set around `okRow`. -/
def okData : List Rec := [okRow]

/-- The extracted point produced from `okRow`. -/
def okPoint : EPt :=
  { lat := JSVal.num 30, lon := JSVal.num 120, value := JSVal.num 55,
    date := JSVal.str "20130101", yearMonth := JSVal.undef,
    temp := JSVal.undef, rh := JSVal.undef, u := JSVal.undef, v := JSVal.undef }

end DV.Loader

namespace DV.Wind

/-!
src/windfield-canvas-visualization.js — the geographically-distributed
spatial sampler `sampleData` (lines 146-180).
-/

open DV

/-- A spatial point as seen by the sampler: coordinates plus an opaque tag
standing for the remaining payload (wind components, value, date). -/
structure WPt where
  lat : ℚ
  lon : ℚ
  tag : ℕ
deriving DecidableEq

/-- `d3.extent(data, f)` lower bound on a non-empty list of finite numbers. -/
def extentMin (f : WPt → ℚ) : List WPt → ℚ
  | [] => 0
  | p :: ps => ps.foldl (fun m q => min m (f q)) (f p)

/-- `d3.extent(data, f)` upper bound on a non-empty list of finite numbers. -/
def extentMax (f : WPt → ℚ) : List WPt → ℚ
  | [] => 0
  | p :: ps => ps.foldl (fun m q => max m (f q)) (f p)

/-- `Math.floor((coordinate − minBound) / cellSize)`
(windfield-canvas-visualization.js:161-162). -/
def gridIndex (coord minB cellSize : ℚ) : ℤ := Int.floor ((coord - minB) / cellSize)

/-- The latitude grid index `gridX` a point of `data` is bucketed under:
`Math.floor((d.lat - latRange[0]) / latCellSize)` with
`latCellSize = (latRange[1] - latRange[0]) / gridSize`, `gridSize = 50`. -/
def gridXOf (data : List WPt) (d : WPt) : ℤ :=
  gridIndex d.lat (extentMin (fun p => p.lat) data)
    ((extentMax (fun p => p.lat) data - extentMin (fun p => p.lat) data) / 50)

/-- The longitude grid index `gridY`, symmetric to `gridXOf`. -/
def gridYOf (data : List WPt) (d : WPt) : ℤ :=
  gridIndex d.lon (extentMin (fun p => p.lon) data)
    ((extentMax (fun p => p.lon) data - extentMin (fun p => p.lon) data) / 50)

/-- The grid `Map` fill loop (windfield-canvas-visualization.js:157-169):
first point per cell wins; JS `Map` preserves insertion order. -/
def buildGrid (data : List WPt) : List ((ℤ × ℤ) × WPt) :=
  data.foldl (fun grid d =>
    let key := (gridXOf data d, gridYOf data d)
    if grid.any (fun e => e.1 = key) then grid else grid ++ [(key, d)]) []

/-- `sampleData(data, maxPoints)` (windfield-canvas-visualization.js:146-180):
identity up to `maxPoints`; else first-wins grid bucketing, then, when the
bucketed set still exceeds `maxPoints`, a final fixed-stride reduction. -/
def sampleData (data : List WPt) (maxPoints : ℕ) : List WPt :=
  if data.length ≤ maxPoints then data
  else
    let sampled := (buildGrid data).map Prod.snd
    if maxPoints < sampled.length then
      jsStride (jsCeilDiv sampled.length maxPoints) sampled
    else sampled

/-- Concrete three-point data set whose latitude/longitude extent is
`[0, 50]`: the third point sits exactly on the upper boundary of the domain. -/
def wData : List WPt := [⟨0, 0, 0⟩, ⟨25, 10, 1⟩, ⟨50, 50, 2⟩]

end DV.Wind

/-!
## Theorems
-/

namespace DV.Corr

theorem sumSqDev_nonneg (l : List ℚ) : 0 ≤ sumSqDev l := by
  apply List.sum_nonneg
  intro x hx
  obtain ⟨v, _, rfl⟩ := List.mem_map.mp hx
  positivity

theorem extractVals_length (data : List Rec) (v : String)
    (h : ∀ d ∈ data, (extractValue d v).isSome) :
    (extractVals data v).length = data.length := by
  induction data with
  | nil => rfl
  | cons d t ih =>
    obtain ⟨q, hq⟩ := Option.isSome_iff_exists.mp (h d (List.mem_cons_self d t))
    simp only [extractVals, List.map_cons, List.filterMap_cons, hq, id, List.length_cons]
    exact congrArg (· + 1) (ih (fun d hd => h d (List.mem_cons_of_mem _ hd)))

theorem pairedVals_eq_zip (data : List Rec) (vi vj : String)
    (h : ∀ d ∈ data, (extractValue d vi).isSome ∧ (extractValue d vj).isSome) :
    pairedVals data vi vj = (extractVals data vi).zip (extractVals data vj) := by
  induction data with
  | nil => rfl
  | cons d t ih =>
    obtain ⟨a, ha⟩ := Option.isSome_iff_exists.mp (h d (List.mem_cons_self d t)).1
    obtain ⟨b, hb⟩ := Option.isSome_iff_exists.mp (h d (List.mem_cons_self d t)).2
    simp only [pairedVals, extractVals, List.map_cons, List.filterMap_cons, ha, hb, id,
      List.zip_cons_cons]
    exact congrArg _ (ih (fun d hd => h d (List.mem_cons_of_mem _ hd)))

theorem correlation_eq_pearsonSpec_zip (xs ys : List ℚ) (h : xs.length = ys.length) :
    correlation xs ys = pearsonSpec (xs.zip ys) := by
  unfold correlation pearsonSpec
  rw [List.map_fst_zip xs ys (le_of_eq h), List.map_snd_zip xs ys (le_of_eq h.symm)]
  rcases Nat.eq_zero_or_pos xs.length with h0 | hpos
  · obtain rfl := List.length_eq_zero.mp h0
    obtain rfl := List.length_eq_zero.mp (h ▸ h0)
    norm_num [sumSqDev, meanQ]
  · have hne : xs.length ≠ 0 := Nat.pos_iff_ne_zero.mp hpos
    rw [if_neg (by push_neg; exact ⟨h, hne⟩)]
    by_cases hp : sumSqDev xs * sumSqDev ys = 0
    · rw [if_pos hp]
      have hz : ((sumSqDev xs * sumSqDev ys : ℚ) : ℝ) = 0 := by exact_mod_cast hp
      rw [hz, Real.sqrt_zero, if_pos rfl]
    · have hpos' : (0 : ℝ) < ((sumSqDev xs * sumSqDev ys : ℚ) : ℝ) := by
        have := mul_nonneg (sumSqDev_nonneg xs) (sumSqDev_nonneg ys)
        exact_mod_cast lt_of_le_of_ne this (Ne.symm hp)
      have hs : Real.sqrt ((sumSqDev xs * sumSqDev ys : ℚ) : ℝ) ≠ 0 :=
        ne_of_gt (Real.sqrt_pos.mpr hpos')
      rw [if_neg hs, if_neg hp]

theorem matrixEntry_offdiag (data : List Rec) (vars : List String) (i j : ℕ) (vi vj : String)
    (hi : vars[i]? = some vi) (hj : vars[j]? = some vj) (hij : i ≠ j) :
    matrixEntry (computeCorrelationMatrix data vars) i j
      = correlation (extractVals data vi) (extractVals data vj) := by
  simp [matrixEntry, computeCorrelationMatrix, List.getD_eq_getElem?_getD,
    List.getElem?_map, List.getElem?_enum, hi, hj, hij]

/-- C8: for every pair of value sequences whose Pearson denominator — the
product of the two variables' sums of squared deviations — is zero (in
particular two constant columns), `correlation` returns exactly 0, never NaN
and never an error (the model's codomain ℝ has no NaN, and the function is
total). -/
theorem correlation_zero_denominator (x y : List ℚ)
    (h : sumSqDev x * sumSqDev y = 0) : correlation x y = 0 := by
  unfold correlation
  by_cases hg : x.length ≠ y.length ∨ x.length = 0
  · rw [if_pos hg]
  · rw [if_neg hg]
    have hz : ((sumSqDev x * sumSqDev y : ℚ) : ℝ) = 0 := by exact_mod_cast h
    rw [hz, Real.sqrt_zero, if_pos rfl]

/-- Witness for C8 at two constant columns `[5,5,5]` and `[7,7,7]`. -/
theorem correlation_zero_denominator_witness :
    sumSqDev [(5:ℚ),5,5] * sumSqDev [(7:ℚ),7,7] = 0 ∧
      correlation [(5:ℚ),5,5] [(7:ℚ),7,7] = 0 :=
  ⟨by norm_num [sumSqDev, meanQ],
   correlation_zero_denominator _ _ (by norm_num [sumSqDev, meanQ])⟩

/-- C1, counterexample: on the record set `cData` (a record missing variable
"B"), the off-diagonal cell (0,1) of the code's correlation matrix is 0 — the
two variables are filtered independently and end up with different lengths —
while the Pearson coefficient over the pairs from records where both
variables resolve is 1. -/
theorem computeCorrelationMatrix_not_pairwise :
    matrixEntry (computeCorrelationMatrix cData ["A", "B"]) 0 1
      ≠ pearsonSpec (pairedVals cData "A" "B") := by
  have h1 : matrixEntry (computeCorrelationMatrix cData ["A", "B"]) 0 1 = 0 := by
    rw [matrixEntry_offdiag cData ["A", "B"] 0 1 "A" "B" rfl rfl (by decide)]
    have hA : extractVals cData "A" = [1, 2, 3] := by decide
    have hB : extractVals cData "B" = [2, 4] := by decide
    rw [hA, hB, correlation]
    norm_num
  have h2 : pearsonSpec (pairedVals cData "A" "B") = 1 := by
    have h : pairedVals cData "A" "B" = [(1, 2), (2, 4)] := by decide
    rw [h, pearsonSpec]
    norm_num [sumSqDev, meanQ, corrNum]
  rw [h1, h2]
  norm_num

/-- C1 (amended): the off-diagonal cell (i, j) of `computeCorrelationMatrix`
is the Pearson coefficient of the two variables' independently filtered value
sequences; this agrees with the pairwise extraction of the claim only when
every record resolves both variables to a numeric value (in general a record
missing one variable misaligns the sequences, and mismatched lengths make the
cell 0). -/
theorem correlationMatrix_offdiag_fully_resolved
    (data : List Rec) (vars : List String) (i j : ℕ) (vi vj : String)
    (hi : vars[i]? = some vi) (hj : vars[j]? = some vj) (hij : i ≠ j)
    (hall : ∀ d ∈ data, (extractValue d vi).isSome ∧ (extractValue d vj).isSome) :
    matrixEntry (computeCorrelationMatrix data vars) i j
      = pearsonSpec (pairedVals data vi vj) := by
  rw [matrixEntry_offdiag data vars i j vi vj hi hj hij,
    pairedVals_eq_zip data vi vj hall]
  exact correlation_eq_pearsonSpec_zip _ _ (by
    rw [extractVals_length data vi (fun d hd => (hall d hd).1),
      extractVals_length data vj (fun d hd => (hall d hd).2)])

/-- Witness for the amended C1 on `cDataFull`, where every record resolves
both variables. -/
theorem correlationMatrix_offdiag_fully_resolved_witness :
    (["A", "B"][0]? = some "A") ∧ (["A", "B"][1]? = some "B") ∧ (0 : ℕ) ≠ 1 ∧
      (∀ d ∈ cDataFull, (extractValue d "A").isSome ∧ (extractValue d "B").isSome) ∧
      matrixEntry (computeCorrelationMatrix cDataFull ["A", "B"]) 0 1
        = pearsonSpec (pairedVals cDataFull "A" "B") :=
  ⟨rfl, rfl, by decide, by decide,
   correlationMatrix_offdiag_fully_resolved cDataFull ["A", "B"] 0 1 "A" "B"
     rfl rfl (by decide) (by decide)⟩

end DV.Corr

namespace DV

theorem range_stride_count (step : ℕ) (h : 0 < step) :
    ∀ n : ℕ, ((List.range n).filter (fun i => i % step == 0)).length = (n + step - 1) / step := by
  intro n
  induction n with
  | zero =>
    simp [List.range_zero, Nat.div_eq_of_lt (by omega : step - 1 < step)]
  | succ n ih =>
    rw [List.range_succ, List.filter_append, List.length_append, ih]
    have hdvd : (step ∣ n + step) ↔ (step ∣ n) := by
      constructor
      · intro hd
        have := Nat.dvd_sub' hd (dvd_refl step)
        simpa using this
      · intro hd
        exact Nat.dvd_add hd (dvd_refl step)
    have he : n + step - 1 + 1 = n + step := by omega
    have hsucc : (n + step) / step = (n + step - 1) / step
        + if step ∣ n + step then 1 else 0 := by
      rw [← he, Nat.succ_div, he]
    have harr : n + 1 + step - 1 = n + step := by omega
    rw [harr, hsucc]
    by_cases hd : n % step = 0
    · have hdv : step ∣ n := Nat.dvd_of_mod_eq_zero hd
      simp [hd, hdvd.mpr hdv]
    · have hnd : ¬ step ∣ n := fun hc => hd (Nat.mod_eq_zero_of_dvd hc)
      simp [hd, hdvd, hnd]

end DV
namespace DV

theorem jsStride_length {α : Type} (step : ℕ) (l : List α) :
    (jsStride step l).length
      = ((List.range l.length).filter (fun i => i % step == 0)).length := by
  unfold jsStride
  rw [List.length_map]
  have hmap : ((l.enum.map Prod.fst).filter (fun i => i % step == 0)).length
      = (l.enum.filter (fun x => x.1 % step == 0)).length := by
    rw [List.filter_map, List.length_map]
    rfl
  rw [← List.enum_map_fst l, hmap]

theorem jsCeilDiv_le (n step k : ℕ) (hstep : 0 < step) (hk : n ≤ step * k) :
    jsCeilDiv n step ≤ k := by
  unfold jsCeilDiv
  have hexp : (k + 1) * step = step * k + step := by ring
  have hlt : n + step - 1 < (k + 1) * step := by omega
  have := (Nat.div_lt_iff_lt_mul hstep).mpr hlt
  omega

theorem le_ceil_mul (n k : ℕ) (hk : 0 < k) : n ≤ jsCeilDiv n k * k := by
  unfold jsCeilDiv
  have h1 := Nat.div_add_mod (n + k - 1) k
  have h2 : (n + k - 1) % k < k := Nat.mod_lt _ hk
  have h3 : (n + k - 1) / k * k = k * ((n + k - 1) / k) := by ring
  omega

theorem jsStride_length_le {α : Type} (l : List α) (k : ℕ) (hk : 0 < k)
    (hl : k < l.length) : (jsStride (jsCeilDiv l.length k) l).length ≤ k := by
  have hstep : 0 < jsCeilDiv l.length k := by
    unfold jsCeilDiv
    exact Nat.le_div_iff_mul_le hk |>.mpr (by omega)
  rw [jsStride_length, range_stride_count _ hstep]
  have hle : l.length ≤ jsCeilDiv l.length k * k := le_ceil_mul l.length k hk
  have hexp : (k + 1) * jsCeilDiv l.length k
      = jsCeilDiv l.length k * k + jsCeilDiv l.length k := by ring
  have hlt : l.length + jsCeilDiv l.length k - 1 < (k + 1) * jsCeilDiv l.length k := by omega
  have := (Nat.div_lt_iff_lt_mul hstep).mpr hlt
  omega

end DV

namespace DV

/-- C7: for every point list and positive `maxCount`, both samplers — the
windfield grid sampler and the data-loader stride sampler — return at most
`maxCount` elements, and return the input unchanged whenever it has at most
`maxCount` elements. -/
theorem sampleData_at_most_maxCount {α : Type} (points : List DV.Wind.WPt)
    (ts : List α) (maxCount : ℕ) (hk : 0 < maxCount) :
    ((points.length ≤ maxCount → DV.Wind.sampleData points maxCount = points) ∧
      (DV.Wind.sampleData points maxCount).length ≤ maxCount) ∧
    ((ts.length ≤ maxCount → DV.Loader.sampleData ts maxCount = ts) ∧
      (DV.Loader.sampleData ts maxCount).length ≤ maxCount) := by
  constructor
  · unfold DV.Wind.sampleData
    by_cases h : points.length ≤ maxCount
    · simp [h]
    · rw [if_neg h]
      refine ⟨fun hc => absurd hc h, ?_⟩
      by_cases h2 : maxCount < ((DV.Wind.buildGrid points).map Prod.snd).length
      · rw [if_pos h2]
        exact jsStride_length_le _ maxCount hk h2
      · rw [if_neg h2]
        omega
  · unfold DV.Loader.sampleData
    by_cases h : ts.length ≤ maxCount
    · simp [h]
    · rw [if_neg h]
      refine ⟨fun hc => absurd hc h, ?_⟩
      exact jsStride_length_le _ maxCount hk (by omega)

/-- Witness for C7 at a three-point list, a five-element series and
`maxCount = 2`. -/
theorem sampleData_at_most_maxCount_witness :
    (0 < 2) ∧
    (((DV.Wind.wData.length ≤ 2 → DV.Wind.sampleData DV.Wind.wData 2 = DV.Wind.wData) ∧
        (DV.Wind.sampleData DV.Wind.wData 2).length ≤ 2) ∧
      (([1, 2, 3, 4, 5].length ≤ 2 → DV.Loader.sampleData [1, 2, 3, 4, 5] 2 = [1, 2, 3, 4, 5]) ∧
        (DV.Loader.sampleData ([1, 2, 3, 4, 5] : List ℕ) 2).length ≤ 2)) :=
  ⟨by decide, sampleData_at_most_maxCount DV.Wind.wData [1, 2, 3, 4, 5] 2 (by decide)⟩

end DV

namespace DV.Loader

/-- C10: for every positive sampling rate, `sampleTimeseriesData` is the
identity on inputs of at most 10000 elements; on longer inputs it keeps
exactly the elements whose index is divisible by the rate, in their original
relative order. -/
theorem sampleTimeseriesData_stride {α : Type} (data : List α) (rate : ℕ) (h : 0 < rate) :
    sampleTimeseriesData data rate =
      if data.length ≤ 10000 then data
      else (data.enum.filter (fun x => rate ∣ x.1)).map Prod.snd := by
  unfold sampleTimeseriesData
  by_cases hl : data.length ≤ 10000
  · simp [hl]
  · rw [if_neg hl, if_neg hl]
    congr 1
    apply List.filter_congr
    intro x _
    by_cases hx : x.1 % rate = 0 <;>
      simp [hx, Nat.dvd_iff_mod_eq_zero, Nat.pos_iff_ne_zero.mp h]

/-- Witness for C10 at sampling rate 1 and a three-element series. -/
theorem sampleTimeseriesData_stride_witness :
    (0 < 1) ∧ sampleTimeseriesData [10, 20, 30] 1 = [10, 20, 30] :=
  ⟨by decide, by
    rw [sampleTimeseriesData_stride [10, 20, 30] 1 (by decide)]
    rfl⟩

end DV.Loader

namespace DV.Wind

theorem foldl_min_le_init (f : WPt → ℚ) :
    ∀ (l : List WPt) (acc : ℚ), l.foldl (fun m q => min m (f q)) acc ≤ acc := by
  intro l
  induction l with
  | nil => intro acc; simp
  | cons p ps ih =>
    intro acc
    calc ps.foldl (fun m q => min m (f q)) (min acc (f p)) ≤ min acc (f p) := ih _
      _ ≤ acc := min_le_left _ _

theorem foldl_min_le_mem (f : WPt → ℚ) :
    ∀ (l : List WPt) (acc : ℚ) (x : WPt), x ∈ l →
      l.foldl (fun m q => min m (f q)) acc ≤ f x := by
  intro l
  induction l with
  | nil => intro acc x hx; cases hx
  | cons p ps ih =>
    intro acc x hx
    rcases List.mem_cons.mp hx with rfl | hx
    · calc ps.foldl (fun m q => min m (f q)) (min acc (f x)) ≤ min acc (f x) :=
        foldl_min_le_init f ps _
        _ ≤ f x := min_le_right _ _
    · exact ih _ x hx

theorem init_le_foldl_max (f : WPt → ℚ) :
    ∀ (l : List WPt) (acc : ℚ), acc ≤ l.foldl (fun m q => max m (f q)) acc := by
  intro l
  induction l with
  | nil => intro acc; simp
  | cons p ps ih =>
    intro acc
    calc acc ≤ max acc (f p) := le_max_left _ _
      _ ≤ ps.foldl (fun m q => max m (f q)) (max acc (f p)) := ih _

theorem mem_le_foldl_max (f : WPt → ℚ) :
    ∀ (l : List WPt) (acc : ℚ) (x : WPt), x ∈ l →
      f x ≤ l.foldl (fun m q => max m (f q)) acc := by
  intro l
  induction l with
  | nil => intro acc x hx; cases hx
  | cons p ps ih =>
    intro acc x hx
    rcases List.mem_cons.mp hx with rfl | hx
    · calc f x ≤ max acc (f x) := le_max_right _ _
        _ ≤ ps.foldl (fun m q => max m (f q)) (max acc (f x)) := init_le_foldl_max f ps _
    · exact ih _ x hx

theorem extentMin_le (f : WPt → ℚ) (data : List WPt) (d : WPt) (hd : d ∈ data) :
    extentMin f data ≤ f d := by
  cases data with
  | nil => cases hd
  | cons p ps =>
    unfold extentMin
    rcases List.mem_cons.mp hd with rfl | hd
    · exact foldl_min_le_init f ps (f d)
    · exact foldl_min_le_mem f ps (f p) d hd

theorem le_extentMax (f : WPt → ℚ) (data : List WPt) (d : WPt) (hd : d ∈ data) :
    f d ≤ extentMax f data := by
  cases data with
  | nil => cases hd
  | cons p ps =>
    unfold extentMax
    rcases List.mem_cons.mp hd with rfl | hd
    · exact init_le_foldl_max f ps (f d)
    · exact mem_le_foldl_max f ps (f p) d hd

theorem gridIndex_bounds (x lo hi : ℚ) (hlt : lo < hi) (h1 : lo ≤ x) (h2 : x ≤ hi) :
    0 ≤ gridIndex x lo ((hi - lo) / 50) ∧ gridIndex x lo ((hi - lo) / 50) ≤ 50 := by
  unfold gridIndex
  have hsub : (0 : ℚ) < hi - lo := by linarith
  have hcell : (0 : ℚ) < (hi - lo) / 50 := by positivity
  constructor
  · apply Int.floor_nonneg.mpr
    apply div_nonneg (by linarith) (le_of_lt hcell)
  · have hle : (x - lo) / ((hi - lo) / 50) ≤ 50 := by
      rw [div_le_iff₀ hcell]
      have h50 : (50 : ℚ) * ((hi - lo) / 50) = hi - lo := by field_simp
      rw [h50]
      linarith
    calc Int.floor ((x - lo) / ((hi - lo) / 50)) ≤ Int.floor (50 : ℚ) :=
      Int.floor_le_floor hle
      _ = 50 := by norm_num

end DV.Wind

namespace DV.Wind

/-- C6, counterexample: in the grid bucketing of `sampleData` (engaged here
since `wData` has more than `maxPoints = 2` elements), the point lying
exactly on the domain's upper latitude boundary is assigned latitude cell
index 50 — a 51st cell — because the code clamps nothing; the claimed range
`[0, gridSize − 1] = [0, 49]` is violated. -/
theorem gridIndex_overflows_at_upper_boundary :
    2 < wData.length ∧ (⟨50, 50, 2⟩ : WPt) ∈ wData ∧
      gridXOf wData ⟨50, 50, 2⟩ = 50 ∧ ¬(gridXOf wData ⟨50, 50, 2⟩ ≤ 49) := by
  refine ⟨by decide, by decide, ?_, ?_⟩
  · have h : gridXOf wData ⟨50, 50, 2⟩ = Int.floor (((50 : ℚ) - 0) / ((50 - 0) / 50)) := by
      norm_num [gridXOf, gridIndex, extentMin, extentMax, wData]
    rw [h]
    norm_num
  · have h : gridXOf wData ⟨50, 50, 2⟩ = Int.floor (((50 : ℚ) - 0) / ((50 - 0) / 50)) := by
      norm_num [gridXOf, gridIndex, extentMin, extentMax, wData]
    rw [h]
    norm_num

end DV.Wind
namespace DV.Wind

/-- C6 (amended): in the grid bucketing every point of the data set gets cell
indices within `[0, gridSize] = [0, 50]` on each axis (when the respective
coordinate extent is non-degenerate); interior points fall in `[0, 49]`, but
a point exactly on the domain's upper boundary lands in the extra
(gridSize+1)-th cell with index 50, since the code applies no clamping. -/
theorem gridIndex_within_zero_to_gridSize (data : List WPt) (d : WPt)
    (hd : d ∈ data)
    (hlat : extentMin (fun p => p.lat) data < extentMax (fun p => p.lat) data)
    (hlon : extentMin (fun p => p.lon) data < extentMax (fun p => p.lon) data) :
    (0 ≤ gridXOf data d ∧ gridXOf data d ≤ 50) ∧
      (0 ≤ gridYOf data d ∧ gridYOf data d ≤ 50) := by
  constructor
  · exact gridIndex_bounds d.lat _ _ hlat
      (extentMin_le (fun p => p.lat) data d hd) (le_extentMax (fun p => p.lat) data d hd)
  · exact gridIndex_bounds d.lon _ _ hlon
      (extentMin_le (fun p => p.lon) data d hd) (le_extentMax (fun p => p.lon) data d hd)

/-- Witness for the amended C6 at the boundary point of `wData`. -/
theorem gridIndex_within_zero_to_gridSize_witness :
    ((⟨50, 50, 2⟩ : WPt) ∈ wData ∧
      extentMin (fun p => p.lat) wData < extentMax (fun p => p.lat) wData ∧
      extentMin (fun p => p.lon) wData < extentMax (fun p => p.lon) wData) ∧
    ((0 ≤ gridXOf wData ⟨50, 50, 2⟩ ∧ gridXOf wData ⟨50, 50, 2⟩ ≤ 50) ∧
      (0 ≤ gridYOf wData ⟨50, 50, 2⟩ ∧ gridYOf wData ⟨50, 50, 2⟩ ≤ 50)) :=
  ⟨⟨by decide, by decide, by decide⟩,
   gridIndex_within_zero_to_gridSize wData ⟨50, 50, 2⟩ (by decide) (by decide) (by decide)⟩

end DV.Wind

namespace DV.Loader


/-- C4 (code bug): `loadConsecutiveDays("20130105", 10)` enumerates six
dates, not at most five — the `dateStr < '20130101'` bound check runs only
after the date has been pushed, so 20121231, a date before the dataset's
lower bound, is enumerated (and a load is issued for every enumerated date,
data-loader.js:179), contradicting the code's own comment that the walk must
not leave the data range starting 2013-01-01. -/
theorem availableDates_crosses_lower_bound :
    availableDates ⟨2013, 1, 5⟩ 10 =
        [20130105, 20130104, 20130103, 20130102, 20130101, 20121231] ∧
      20121231 ∈ availableDates ⟨2013, 1, 5⟩ 10 ∧
      (20121231 : ℕ) < 20130101 ∧
      (availableDates ⟨2013, 1, 5⟩ 10).length = 6 := by
  refine ⟨by decide, by decide, by decide, by decide⟩

/-- C5, counterexample: the record whose "PM2.5" cell is the empty string
(an empty CSV field) is NOT dropped by `extractPollutantData`: JS
`isNaN('')` is false (`ToNumber('') = 0`), so the point is kept with the
non-numeric value `""` — refuting the claim that every returned point has a
numeric value. -/
theorem extractPollutantData_keeps_non_numeric_value :
    (extractPollutantData edgeData "PM2.5").map (fun p => p.value) = [JSVal.str ""] ∧
      ∀ q : ℚ, JSVal.str "" ≠ JSVal.num q := by
  refine ⟨by decide, ?_⟩
  intro q h
  cases h

end DV.Loader

namespace DV.Loader

open DV

/-- C5 (amended): every point returned by `extractPollutantData` has a value
that is neither `null` nor `undefined` and does not coerce to NaN — records
failing this are dropped, never kept with a sentinel — but the filter does
not force the value to be a finite number: an infinite value or a
non-numeric string coercing to a number (such as the empty string, for which
JS `isNaN` is false) is retained. -/
theorem extractPollutantData_value_filter (rawData : List Rec) (name : String)
    (p : EPt) (hp : p ∈ extractPollutantData rawData name) :
    jsNeqNull p.value = true ∧ jsIsNaN p.value = false := by
  unfold extractPollutantData at hp
  rcases rawData with _ | ⟨first, rest⟩
  · cases hp
  · simp only at hp
    rcases hfind : (match
        [name, jsTrim name, " " ++ name, name ++ " ", name ++ "(",
          " " ++ name ++ "("].find? (fun k => hasKey first k) with
      | some k => some k
      | none => (first.map Prod.fst).find? (fun k => strContains k (jsTrim name))) with
      _ | mk
    · rw [hfind] at hp
      cases hp
    · rw [hfind] at hp
      rw [List.mem_filter] at hp
      have hb := hp.2
      rw [Bool.and_eq_true] at hb
      exact ⟨hb.1, by simpa using hb.2⟩

/-- Witness for the amended C5 at the numeric record `okData`. -/
theorem extractPollutantData_value_filter_witness :
    (okPoint ∈ extractPollutantData okData "PM2.5") ∧
      jsNeqNull okPoint.value = true ∧ jsIsNaN okPoint.value = false :=
  ⟨by decide,
   extractPollutantData_value_filter okData "PM2.5" okPoint (by decide)⟩

end DV.Loader

namespace DV.Loader

open DV

theorem probeRoots_all_fail (st : LoaderState) (fetch : Fetch) (rel : String)
    (roots : List String)
    (h : ∀ c ∈ roots, fetch (normRoot c ++ rel) = none) :
    probeRoots st fetch rel roots =
      (st.basePath, st, roots.map (fun r => normRoot r ++ rel)) := by
  induction roots with
  | nil => rfl
  | cons r rest ih =>
    have hr := h r (List.mem_cons_self r rest)
    have hrest := ih (fun c hc => h c (List.mem_cons_of_mem r hc))
    simp [probeRoots, hr, hrest]

theorem resolveBasePathIfNeeded_state_all_fail (st : LoaderState) (fetch : Fetch)
    (ymd : String) (hfail : ∀ u, fetch u = none) :
    (resolveBasePathIfNeeded st fetch ymd).2.1 = st := by
  unfold resolveBasePathIfNeeded
  rcases hr : st.resolvedBasePath with _ | r
  · simp only [hr]
    rw [probeRoots_all_fail st fetch (dayRelative ymd) (candidateRoots st)
      (fun c _ => hfail _)]
  · simp only [hr]

/-- C2, counterexample: with every fetch failing, `loadDayData("20130102")`
returns the empty sequence but writes NO cache entry for the date (the early
return on the double-failure path skips the `dataCache.set`), so the claimed
subsequent cache hit does not happen: the second call fetches again (eight
URLs: first attempt, six probes, retry). -/
theorem loadDayData_failure_not_cached :
    (loadDayData initialState fetchNone "20130102").1 = [] ∧
      ((loadDayData initialState fetchNone "20130102").2.1.dataCache.find?
        (fun e => e.1 = "20130102")) = none ∧
      (loadDayData (loadDayData initialState fetchNone "20130102").2.1
        fetchNone "20130102").2.2.length = 8 := by
  refine ⟨by decide, by decide, by decide⟩

/-- C2 (amended): when a date's load fails both on the first attempt and on
the retry after root re-resolution, `loadDayData` returns the empty sequence
WITHOUT caching it — the cache is left exactly as it was, and on a cache
miss the failing call did issue fetches — so a subsequent call for the same
date re-fetches instead of hitting the cache. -/
theorem loadDayData_double_failure_uncached
    (st : LoaderState) (fetch : Fetch) (ymd : String)
    (hfail : ∀ u, fetch u = none) :
    (loadDayData st fetch ymd).1 =
        ((st.dataCache.find? (fun e => e.1 = ymd)).map Prod.snd).getD [] ∧
      (loadDayData st fetch ymd).2.1.dataCache = st.dataCache ∧
      ((st.dataCache.find? (fun e => e.1 = ymd)) = none →
        (loadDayData st fetch ymd).2.2 ≠ []) := by
  unfold loadDayData
  rcases hc : (st.dataCache.find? (fun e => e.1 = ymd)).map Prod.snd with _ | rows
  · simp only [hc, hfail]
    refine ⟨rfl, ?_, ?_⟩
    · rw [resolveBasePathIfNeeded_state_all_fail st fetch ymd hfail]
    · intro _
      simp
  · refine ⟨by simp [hc], by simp [hc], fun hnone => ?_⟩
    rw [hnone] at hc
    cases hc

end DV.Loader

namespace DV.Loader

open DV

/-- Witness for the amended C2 with the always-failing fetch oracle. -/
theorem loadDayData_double_failure_uncached_witness :
    (∀ u, fetchNone u = none) ∧
      ((loadDayData initialState fetchNone "20130109").1 =
        ((initialState.dataCache.find? (fun e => e.1 = "20130109")).map Prod.snd).getD [] ∧
      (loadDayData initialState fetchNone "20130109").2.1.dataCache
          = initialState.dataCache ∧
      ((initialState.dataCache.find? (fun e => e.1 = "20130109")) = none →
        (loadDayData initialState fetchNone "20130109").2.2 ≠ [])) :=
  ⟨fun _ => rfl,
   loadDayData_double_failure_uncached initialState fetchNone "20130109" (fun _ => rfl)⟩

/-- C3, counterexample: with a date whose file is missing everywhere, a
single `loadDayData` call already fetches the day file eight times (first
attempt, six fallback probes, retry) — every probed URL carries the day's
file name — and a second sequential call is no cache hit: it fetches all
eight again.  The underlying fetch for the date is thus not invoked at most
once. -/
theorem loadDayData_fetch_more_than_once :
    ((loadDayData initialState fetchNone "20130103").2.2.all
        (fun u => strContains u (dayFileName "20130103"))) = true ∧
      (loadDayData initialState fetchNone "20130103").2.2.length = 8 ∧
      (loadDayData (loadDayData initialState fetchNone "20130103").2.1 fetchNone
        "20130103").2.2.length = 8 := by
  refine ⟨by decide, by decide, by decide⟩

/-- C3 (amended): when the first fetch for an uncached date succeeds, the
stamped records are cached, and a second sequential `loadDayData` for the
same date is a cache hit: it returns the identical cached sequence, leaves
the state unchanged and issues no fetch.  (Failed loads are never cached —
see the C2 analysis — and the code has no in-flight request table, so
overlapping concurrent callers of an uncached date may each fetch; the spec
itself flags this as unenforced.) -/
theorem loadDayData_success_then_cache_hit
    (st : LoaderState) (fetch : Fetch) (ymd : String) (csv : Csv)
    (hmiss : st.dataCache.find? (fun e => e.1 = ymd) = none)
    (hok : fetch ((st.resolvedBasePath.getD st.basePath) ++ strTake ymd 6 ++ "/"
        ++ dayFileName ymd) = some csv) :
    loadDayData st fetch ymd =
        (csv.map (stampRow ymd),
         { st with dataCache := st.dataCache ++ [(ymd, csv.map (stampRow ymd))] },
         [(st.resolvedBasePath.getD st.basePath) ++ strTake ymd 6 ++ "/" ++ dayFileName ymd]) ∧
      loadDayData
          { st with dataCache := st.dataCache ++ [(ymd, csv.map (stampRow ymd))] }
          fetch ymd =
        (csv.map (stampRow ymd),
         { st with dataCache := st.dataCache ++ [(ymd, csv.map (stampRow ymd))] },
         []) := by
  constructor
  · unfold loadDayData
    simp only [hmiss, Option.map_none', hok]
  · unfold loadDayData
    rw [List.find?_append, hmiss]
    simp

end DV.Loader

namespace DV.Loader

open DV

theorem probeRoots_first_success (st : LoaderState) (fetch : Fetch) (rel : String)
    (pre : List String) (c : String) (post : List String)
    (hpre : ∀ c' ∈ pre, fetch (normRoot c' ++ rel) = none)
    (hc : (fetch (normRoot c ++ rel)).isSome) :
    probeRoots st fetch rel (pre ++ c :: post) =
      (normRoot c,
       { st with basePath := normRoot c, resolvedBasePath := some (normRoot c) },
       (pre ++ [c]).map (fun r => normRoot r ++ rel)) := by
  induction pre with
  | nil => simp [probeRoots, hc]
  | cons p ps ih =>
    have hp := hpre p (List.mem_cons_self p ps)
    have hrest := ih (fun c' h' => hpre c' (List.mem_cons_of_mem p h'))
    simp [probeRoots, hp, hrest]

/-- C9: with no root resolved yet, `resolveBasePathIfNeeded` probes the
candidate roots strictly in their listed order (the current setting first,
then the fixed fallbacks), one fetch per candidate; the first candidate
yielding a successful response is adopted — `basePath` and
`resolvedBasePath` are both set to its normalized form — and remembered: any
later call returns it with no fetch at all; and when every candidate fails,
the previously configured root is returned with the state left completely
unchanged. -/
theorem resolveBasePathIfNeeded_probe_contract
    (st : LoaderState) (fetch : Fetch) (ymd : String)
    (hun : st.resolvedBasePath = none) :
    (∀ pre c post,
        candidateRoots st = pre ++ c :: post →
        (∀ c' ∈ pre, fetch (normRoot c' ++ dayRelative ymd) = none) →
        (fetch (normRoot c ++ dayRelative ymd)).isSome →
        resolveBasePathIfNeeded st fetch ymd =
            (normRoot c,
             { st with basePath := normRoot c, resolvedBasePath := some (normRoot c) },
             (pre ++ [c]).map (fun r => normRoot r ++ dayRelative ymd)) ∧
          (∀ ymd2,
            resolveBasePathIfNeeded
                { st with basePath := normRoot c, resolvedBasePath := some (normRoot c) }
                fetch ymd2 =
              (normRoot c,
               { st with basePath := normRoot c, resolvedBasePath := some (normRoot c) },
               []))) ∧
      ((∀ c ∈ candidateRoots st, fetch (normRoot c ++ dayRelative ymd) = none) →
        resolveBasePathIfNeeded st fetch ymd =
          (st.basePath, st,
           (candidateRoots st).map (fun r => normRoot r ++ dayRelative ymd))) := by
  constructor
  · intro pre c post hdecomp hpre hc
    constructor
    · unfold resolveBasePathIfNeeded
      rw [hun, hdecomp]
      exact probeRoots_first_success st fetch (dayRelative ymd) pre c post hpre hc
    · intro ymd2
      rfl
  · intro hall
    unfold resolveBasePathIfNeeded
    rw [hun]
    exact probeRoots_all_fail st fetch (dayRelative ymd) (candidateRoots st)
      (fun c hcmem => hall c hcmem)

end DV.Loader

namespace DV.Loader

open DV

/-- Witness for the amended C3 with `fetchOneDay`, which serves exactly the
day file of 2013-01-04 under the default root. -/
theorem loadDayData_success_then_cache_hit_witness :
    (initialState.dataCache.find? (fun e => e.1 = "20130104") = none) ∧
      (fetchOneDay ((initialState.resolvedBasePath.getD initialState.basePath)
          ++ strTake "20130104" 6 ++ "/" ++ dayFileName "20130104") = some oneDayCsv) ∧
      (loadDayData initialState fetchOneDay "20130104" =
          (oneDayCsv.map (stampRow "20130104"),
           { initialState with dataCache := initialState.dataCache ++ [("20130104", oneDayCsv.map (stampRow "20130104"))] },
           [(initialState.resolvedBasePath.getD initialState.basePath)
              ++ strTake "20130104" 6 ++ "/" ++ dayFileName "20130104"]) ∧
        loadDayData
            { initialState with dataCache := initialState.dataCache ++ [("20130104", oneDayCsv.map (stampRow "20130104"))] }
            fetchOneDay "20130104" =
          (oneDayCsv.map (stampRow "20130104"),
           { initialState with dataCache := initialState.dataCache ++ [("20130104", oneDayCsv.map (stampRow "20130104"))] },
           [])) :=
  ⟨rfl, by decide,
   loadDayData_success_then_cache_hit initialState fetchOneDay "20130104" oneDayCsv
     rfl (by decide)⟩

/-- Witness for C9 with `fetchOneDay` for date 2013-01-04: the first
candidate (the default root) succeeds. -/
theorem resolveBasePathIfNeeded_probe_contract_witness :
    initialState.resolvedBasePath = none ∧
      ((∀ pre c post,
          candidateRoots initialState = pre ++ c :: post →
          (∀ c' ∈ pre, fetchOneDay (normRoot c' ++ dayRelative "20130104") = none) →
          (fetchOneDay (normRoot c ++ dayRelative "20130104")).isSome →
          resolveBasePathIfNeeded initialState fetchOneDay "20130104" =
              (normRoot c,
               { initialState with basePath := normRoot c, resolvedBasePath := some (normRoot c) },
               (pre ++ [c]).map (fun r => normRoot r ++ dayRelative "20130104")) ∧
            (∀ ymd2,
              resolveBasePathIfNeeded
                  { initialState with basePath := normRoot c, resolvedBasePath := some (normRoot c) }
                  fetchOneDay ymd2 =
                (normRoot c,
                 { initialState with basePath := normRoot c, resolvedBasePath := some (normRoot c) },
                 []))) ∧
        ((∀ c ∈ candidateRoots initialState,
            fetchOneDay (normRoot c ++ dayRelative "20130104") = none) →
          resolveBasePathIfNeeded initialState fetchOneDay "20130104" =
            (initialState.basePath, initialState,
             (candidateRoots initialState).map
               (fun r => normRoot r ++ dayRelative "20130104")))) :=
  ⟨rfl, resolveBasePathIfNeeded_probe_contract initialState fetchOneDay "20130104" rfl⟩

end DV.Loader
